import Mathlib

/-!
Verification of the risco-backend document-processing pipeline.

Shallow embedding of the pure decision logic of the repository:
the financial-data accessor (`app/utils/financial_data_accessor.py`),
the accounting validator (`app/services/graph_nodes/n4_validate.py`),
the graph router (`app/services/graph_router.py`), the extraction
precondition / routing (`app/services/graph_nodes/n3_extract.py` and
`app/services/graph_definition.py`), the zero-page conversion branch
(`app/services/graph_nodes/n1_upload_convert.py`), the task queue
(`app/services/task_queue.py`) and the company-info page-selection
algorithm (`app/services/graph_nodes/n3_extract_company_info.py`).

Python floats are embedded as exact rationals (ℚ); Python truthiness of
an `Optional[float]` (None and 0.0 are falsy) is made explicit via
`pytruthy`.  Databases and websockets are replaced by explicit values:
a function that in Python persists fields returns the persisted record.
-/

namespace Risco

/-- Python truthiness of an `Optional[float]` value: `None` and `0.0`
are falsy, everything else is truthy. -/
def pytruthy : Option ℚ → Bool
  | none => false
  | some x => x != 0

/-- Python truthiness of an `Optional[str]` value: `None` and `""` are falsy. -/
def pytruthyStr : Option String → Bool
  | none => false
  | some s => s != ""

/-!
## Financial data accessor — `app/utils/financial_data_accessor.py`

The accessor supports two shapes of `resultados_principales`:
the legacy flat-field dict (`{"activo_total_actual": 1000.0, ...}`)
and the new list-of-items shape
(`[{"concepto_code": "activo_total", "monto_actual": ..., "monto_anterior": ...}, ...]`).
-/

/-- One item of the new list shape.  `monto_actual` / `monto_anterior`
are `none` when the key is missing (dict.get returns None). -/
structure FinItem where
  concepto_code : String
  monto_actual : Option ℚ
  monto_anterior : Option ℚ
deriving DecidableEq, Repr

/-- The data handed to `FinancialDataAccessor.__init__`: either the legacy
flat dict (modelled as an association list with distinct keys, a value of
`none` standing for an explicit `None` entry) or the new list of items. -/
inductive FinData where
  | legacy (fields : List (String × Option ℚ))
  | items (l : List FinItem)
deriving DecidableEq, Repr

/-- `FinancialDataAccessor._items_cache` lookup.  The cache is built by
iterating the items in order and overwriting (`self._items_cache[concepto] = item`),
skipping items whose `concepto_code` is falsy, so a lookup returns the
LAST item carrying the requested (non-empty) code. -/
def cacheLookup (c : String) (l : List FinItem) : Option FinItem :=
  (l.filter (fun it => it.concepto_code != "" && it.concepto_code == c)).getLast?

/-- `item.get(f"monto_{periodo}")`. -/
def montoGet (it : FinItem) (periodo : String) : Option ℚ :=
  if periodo = "actual" then it.monto_actual
  else if periodo = "anterior" then it.monto_anterior
  else none

/-- `FinancialDataAccessor.get(concepto, periodo)`. -/
def accGet (d : FinData) (concepto periodo : String) : Option ℚ :=
  match d with
  | .items l =>
    match cacheLookup concepto l with
    | some it => montoGet it periodo
    | none => none
  | .legacy fields => (fields.lookup (concepto ++ "_" ++ periodo)).join

/-- `FinancialDataAccessor.has(concepto)`. -/
def accHas (d : FinData) (concepto : String) : Bool :=
  match d with
  | .items l => (cacheLookup concepto l).isSome
  | .legacy fields =>
    (fields.lookup (concepto ++ "_" ++ "actual")).isSome
      || (fields.lookup (concepto ++ "_" ++ "anterior")).isSome

/-!
## Tolerance predicate — `n4_validate.py`, `is_within_tolerance`
-/

/-- `TOLERANCIA_ERROR = 0.0005` (0.05%). -/
def TOLERANCIA_ERROR : ℚ := 5 / 10000

/-- Python `abs` (kernel-computable; equals mathlib `|·|`, see `pyabs_eq_abs`). -/
def pyabs (q : ℚ) : ℚ := if q < 0 then -q else q

/-- `is_within_tolerance(expected, actual)` from `n4_validate.validate`:
when `expected == 0`, pass iff `abs(actual) <= TOLERANCIA_ERROR`;
otherwise pass iff `abs((actual - expected) / expected) <= TOLERANCIA_ERROR`. -/
def is_within_tolerance (expected actual : ℚ) : Bool :=
  if expected = 0 then pyabs actual ≤ TOLERANCIA_ERROR
  else pyabs ((actual - expected) / expected) ≤ TOLERANCIA_ERROR

/-!
## Money formatting — the Python f-string `f"${value:,.2f}"`

The source renders IEEE doubles; we render the exact rational with the
same format: optional sign, integer part grouped by thousands with
commas, a dot and two fractional digits (rounding to cents).
-/

/-- Insert a comma after every third character (used on the reversed
digit string, so grouping runs from the right). -/
def groupChars : List Char → List Char
  | a :: b :: c :: d :: rest => a :: b :: c :: ',' :: groupChars (d :: rest)
  | l => l

/-- Integer part with thousands separators, e.g. `1234567 ↦ "1,234,567"`. -/
def fmtThousands (n : ℕ) : String :=
  String.mk ((groupChars (toString n).toList.reverse).reverse)

/-- `f"{q:,.2f}"`: two decimals, thousands separators, leading minus sign. -/
def fmtMoney (q : ℚ) : String :=
  let cents : ℤ := ⌊pyabs q * 100 + 1 / 2⌋
  let n : ℕ := cents.toNat
  (if q < 0 then "-" else "")
    ++ fmtThousands (n / 100) ++ "."
    ++ (if n % 100 < 10 then "0" else "") ++ toString (n % 100)

/-!
## Accounting-identity checks — `n4_validate.validate`

Each sub-check of the source appends at most one message to `errors`;
we render every sub-check as a condition (`cond…`), the message it would
append (`msg…`), and its contribution to `errors` (`check…`, empty or a
singleton).  The sequential `errors.append` calls of the source become
list concatenation in the same order.  Checks #4 and #8 are commented
out in the source, so `error_4` and `error_8` stay `False`.
-/

/-- Check #1, current period: `A = P + PN`. -/
def cond1a (bal : FinData) : Bool :=
  let a := accGet bal "activo_total" "actual"
  let p := accGet bal "pasivo_total" "actual"
  let n := accGet bal "patrimonio_neto" "actual"
  pytruthy a && pytruthy p && pytruthy n
    && !(is_within_tolerance (a.getD 0) (p.getD 0 + n.getD 0))

def msg1a (bal : FinData) : String :=
  let a := accGet bal "activo_total" "actual"
  let p := accGet bal "pasivo_total" "actual"
  let n := accGet bal "patrimonio_neto" "actual"
  "A = P + PN (Período actual):\n$" ++ fmtMoney (a.getD 0) ++ " ≠ $"
    ++ fmtMoney (p.getD 0) ++ " + $" ++ fmtMoney (n.getD 0)

/-- Check #1, prior period. -/
def cond1b (bal : FinData) : Bool :=
  let a := accGet bal "activo_total" "anterior"
  let p := accGet bal "pasivo_total" "anterior"
  let n := accGet bal "patrimonio_neto" "anterior"
  pytruthy a && pytruthy p && pytruthy n
    && !(is_within_tolerance (a.getD 0) (p.getD 0 + n.getD 0))

def msg1b (bal : FinData) : String :=
  let a := accGet bal "activo_total" "anterior"
  let p := accGet bal "pasivo_total" "anterior"
  let n := accGet bal "patrimonio_neto" "anterior"
  "A = P + PN (Período anterior):\n$" ++ fmtMoney (a.getD 0) ++ " ≠ $"
    ++ fmtMoney (p.getD 0) ++ " + $" ++ fmtMoney (n.getD 0)

/-- Check #2, current period: `A = A CORRIENTE + A NO CORRIENTE`. -/
def cond2a (bal : FinData) : Bool :=
  let a := accGet bal "activo_total" "actual"
  let c := accGet bal "activo_corriente" "actual"
  let n := accGet bal "activo_no_corriente" "actual"
  pytruthy a && pytruthy c && pytruthy n
    && !(is_within_tolerance (a.getD 0) (c.getD 0 + n.getD 0))

def msg2a (bal : FinData) : String :=
  let a := accGet bal "activo_total" "actual"
  let c := accGet bal "activo_corriente" "actual"
  let n := accGet bal "activo_no_corriente" "actual"
  "A = A CORRIENTE + A NO CORRIENTE (Período actual):\n$" ++ fmtMoney (a.getD 0)
    ++ " ≠ $" ++ fmtMoney (c.getD 0) ++ " + $" ++ fmtMoney (n.getD 0)

/-- Check #2, prior period. -/
def cond2b (bal : FinData) : Bool :=
  let a := accGet bal "activo_total" "anterior"
  let c := accGet bal "activo_corriente" "anterior"
  let n := accGet bal "activo_no_corriente" "anterior"
  pytruthy a && pytruthy c && pytruthy n
    && !(is_within_tolerance (a.getD 0) (c.getD 0 + n.getD 0))

def msg2b (bal : FinData) : String :=
  let a := accGet bal "activo_total" "anterior"
  let c := accGet bal "activo_corriente" "anterior"
  let n := accGet bal "activo_no_corriente" "anterior"
  "A = A CORRIENTE + A NO CORRIENTE (Período anterior):\n$" ++ fmtMoney (a.getD 0)
    ++ " ≠ $" ++ fmtMoney (c.getD 0) ++ " + $" ++ fmtMoney (n.getD 0)

/-- Check #3, current period: `P = P CORRIENTE + P NO CORRIENTE`. -/
def cond3a (bal : FinData) : Bool :=
  let p := accGet bal "pasivo_total" "actual"
  let c := accGet bal "pasivo_corriente" "actual"
  let n := accGet bal "pasivo_no_corriente" "actual"
  pytruthy p && pytruthy c && pytruthy n
    && !(is_within_tolerance (p.getD 0) (c.getD 0 + n.getD 0))

def msg3a (bal : FinData) : String :=
  let p := accGet bal "pasivo_total" "actual"
  let c := accGet bal "pasivo_corriente" "actual"
  let n := accGet bal "pasivo_no_corriente" "actual"
  "P = P CORRIENTE + P NO CORRIENTE (Período actual):\n$" ++ fmtMoney (p.getD 0)
    ++ " ≠ $" ++ fmtMoney (c.getD 0) ++ " + $" ++ fmtMoney (n.getD 0)

/-- Check #3, prior period. -/
def cond3b (bal : FinData) : Bool :=
  let p := accGet bal "pasivo_total" "anterior"
  let c := accGet bal "pasivo_corriente" "anterior"
  let n := accGet bal "pasivo_no_corriente" "anterior"
  pytruthy p && pytruthy c && pytruthy n
    && !(is_within_tolerance (p.getD 0) (c.getD 0 + n.getD 0))

def msg3b (bal : FinData) : String :=
  let p := accGet bal "pasivo_total" "anterior"
  let c := accGet bal "pasivo_corriente" "anterior"
  let n := accGet bal "pasivo_no_corriente" "anterior"
  "P = P CORRIENTE + P NO CORRIENTE (Período anterior):\n$" ++ fmtMoney (p.getD 0)
    ++ " ≠ $" ++ fmtMoney (c.getD 0) ++ " + $" ++ fmtMoney (n.getD 0)

/-- Check #5, current period: `Disponibilidades ≤ Activo corriente`
(with the absolute slack `TOLERANCIA_ERROR`). -/
def cond5a (bal : FinData) : Bool :=
  let d := accGet bal "disponibilidades" "actual"
  let c := accGet bal "activo_corriente" "actual"
  pytruthy d && pytruthy c && (c.getD 0 + TOLERANCIA_ERROR < d.getD 0)

def msg5a (bal : FinData) : String :=
  let d := accGet bal "disponibilidades" "actual"
  let c := accGet bal "activo_corriente" "actual"
  "Disponibilidades (actual) > Activo corriente (actual):\n$"
    ++ fmtMoney (d.getD 0) ++ " > $" ++ fmtMoney (c.getD 0)

/-- Check #5, prior period. -/
def cond5b (bal : FinData) : Bool :=
  let d := accGet bal "disponibilidades" "anterior"
  let c := accGet bal "activo_corriente" "anterior"
  pytruthy d && pytruthy c && (c.getD 0 + TOLERANCIA_ERROR < d.getD 0)

def msg5b (bal : FinData) : String :=
  let d := accGet bal "disponibilidades" "anterior"
  let c := accGet bal "activo_corriente" "anterior"
  "Disponibilidades (anterior) > Activo corriente (anterior):\n$"
    ++ fmtMoney (d.getD 0) ++ " > $" ++ fmtMoney (c.getD 0)

/-- Check #6, current period: `Bienes de cambio ≤ Activo corriente`
(the whole block is guarded by `balance_accessor.has('bienes_de_cambio')`). -/
def cond6a (bal : FinData) : Bool :=
  let b := accGet bal "bienes_de_cambio" "actual"
  let c := accGet bal "activo_corriente" "actual"
  accHas bal "bienes_de_cambio" && pytruthy b && pytruthy c
    && (c.getD 0 + TOLERANCIA_ERROR < b.getD 0)

def msg6a (bal : FinData) : String :=
  let b := accGet bal "bienes_de_cambio" "actual"
  let c := accGet bal "activo_corriente" "actual"
  "Bienes de cambio (actual) > Activo corriente (actual):\n$"
    ++ fmtMoney (b.getD 0) ++ " > $" ++ fmtMoney (c.getD 0)

/-- Check #6, prior period. -/
def cond6b (bal : FinData) : Bool :=
  let b := accGet bal "bienes_de_cambio" "anterior"
  let c := accGet bal "activo_corriente" "anterior"
  accHas bal "bienes_de_cambio" && pytruthy b && pytruthy c
    && (c.getD 0 + TOLERANCIA_ERROR < b.getD 0)

def msg6b (bal : FinData) : String :=
  let b := accGet bal "bienes_de_cambio" "anterior"
  let c := accGet bal "activo_corriente" "anterior"
  "Bienes de cambio (anterior) > Activo corriente (anterior):\n$"
    ++ fmtMoney (b.getD 0) ++ " > $" ++ fmtMoney (c.getD 0)

/-- Check #7, current period: `Disponibilidades + Bienes de cambio ≤ Activo
corriente` (inside the same `has('bienes_de_cambio')` guard as check #6). -/
def cond7a (bal : FinData) : Bool :=
  let d := accGet bal "disponibilidades" "actual"
  let b := accGet bal "bienes_de_cambio" "actual"
  let c := accGet bal "activo_corriente" "actual"
  accHas bal "bienes_de_cambio" && pytruthy d && pytruthy b && pytruthy c
    && (c.getD 0 + TOLERANCIA_ERROR < d.getD 0 + b.getD 0)

def msg7a (bal : FinData) : String :=
  let d := accGet bal "disponibilidades" "actual"
  let b := accGet bal "bienes_de_cambio" "actual"
  let c := accGet bal "activo_corriente" "actual"
  "Disponibilidades + Bienes de cambio (actual) > Activo corriente (actual):\n$"
    ++ fmtMoney (d.getD 0 + b.getD 0) ++ " > $" ++ fmtMoney (c.getD 0)

/-- Check #7, prior period. -/
def cond7b (bal : FinData) : Bool :=
  let d := accGet bal "disponibilidades" "anterior"
  let b := accGet bal "bienes_de_cambio" "anterior"
  let c := accGet bal "activo_corriente" "anterior"
  accHas bal "bienes_de_cambio" && pytruthy d && pytruthy b && pytruthy c
    && (c.getD 0 + TOLERANCIA_ERROR < d.getD 0 + b.getD 0)

def msg7b (bal : FinData) : String :=
  let d := accGet bal "disponibilidades" "anterior"
  let b := accGet bal "bienes_de_cambio" "anterior"
  let c := accGet bal "activo_corriente" "anterior"
  "Disponibilidades + Bienes de cambio (anterior) > Activo corriente (anterior):\n$"
    ++ fmtMoney (d.getD 0 + b.getD 0) ++ " > $" ++ fmtMoney (c.getD 0)

/-- Check #9, current period: `Ingresos por venta ≥ Resultado antes de
impuestos` (on the income accessor). -/
def cond9a (inc : FinData) : Bool :=
  let v := accGet inc "ingresos_por_venta" "actual"
  let r := accGet inc "resultados_antes_de_impuestos" "actual"
  pytruthy v && pytruthy r && (v.getD 0 + TOLERANCIA_ERROR < r.getD 0)

def msg9a (inc : FinData) : String :=
  let v := accGet inc "ingresos_por_venta" "actual"
  let r := accGet inc "resultados_antes_de_impuestos" "actual"
  "Ingresos por venta (actual) < Resultado antes de impuestos (actual):\n$"
    ++ fmtMoney (v.getD 0) ++ " < $" ++ fmtMoney (r.getD 0)

/-- Check #9, prior period. -/
def cond9b (inc : FinData) : Bool :=
  let v := accGet inc "ingresos_por_venta" "anterior"
  let r := accGet inc "resultados_antes_de_impuestos" "anterior"
  pytruthy v && pytruthy r && (v.getD 0 + TOLERANCIA_ERROR < r.getD 0)

def msg9b (inc : FinData) : String :=
  let v := accGet inc "ingresos_por_venta" "anterior"
  let r := accGet inc "resultados_antes_de_impuestos" "anterior"
  "Ingresos por venta (anterior) < Resultado antes de impuestos (anterior):\n$"
    ++ fmtMoney (v.getD 0) ++ " < $" ++ fmtMoney (r.getD 0)

/-- Check #10: `ΔA = ΔP + ΔPN`, requiring all six balance figures. -/
def cond10 (bal : FinData) : Bool :=
  let aa := accGet bal "activo_total" "actual"
  let ab := accGet bal "activo_total" "anterior"
  let pa := accGet bal "pasivo_total" "actual"
  let pb := accGet bal "pasivo_total" "anterior"
  let na := accGet bal "patrimonio_neto" "actual"
  let nb := accGet bal "patrimonio_neto" "anterior"
  pytruthy aa && pytruthy ab && pytruthy pa && pytruthy pb && pytruthy na && pytruthy nb
    && !(is_within_tolerance (aa.getD 0 - ab.getD 0)
          ((pa.getD 0 - pb.getD 0) + (na.getD 0 - nb.getD 0)))

def msg10 (bal : FinData) : String :=
  let aa := accGet bal "activo_total" "actual"
  let ab := accGet bal "activo_total" "anterior"
  let pa := accGet bal "pasivo_total" "actual"
  let pb := accGet bal "pasivo_total" "anterior"
  let na := accGet bal "patrimonio_neto" "actual"
  let nb := accGet bal "patrimonio_neto" "anterior"
  "ΔA = ΔP + ΔPN:\nΔA = $" ++ fmtMoney (aa.getD 0 - ab.getD 0)
    ++ "  ↔  ΔP + ΔPN = $" ++ fmtMoney ((pa.getD 0 - pb.getD 0) + (na.getD 0 - nb.getD 0))

def check1a (bal : FinData) : List String := if cond1a bal then [msg1a bal] else []
def check1b (bal : FinData) : List String := if cond1b bal then [msg1b bal] else []
def check2a (bal : FinData) : List String := if cond2a bal then [msg2a bal] else []
def check2b (bal : FinData) : List String := if cond2b bal then [msg2b bal] else []
def check3a (bal : FinData) : List String := if cond3a bal then [msg3a bal] else []
def check3b (bal : FinData) : List String := if cond3b bal then [msg3b bal] else []
def check5a (bal : FinData) : List String := if cond5a bal then [msg5a bal] else []
def check5b (bal : FinData) : List String := if cond5b bal then [msg5b bal] else []
def check6a (bal : FinData) : List String := if cond6a bal then [msg6a bal] else []
def check6b (bal : FinData) : List String := if cond6b bal then [msg6b bal] else []
def check7a (bal : FinData) : List String := if cond7a bal then [msg7a bal] else []
def check7b (bal : FinData) : List String := if cond7b bal then [msg7b bal] else []
def check9a (inc : FinData) : List String := if cond9a inc then [msg9a inc] else []
def check9b (inc : FinData) : List String := if cond9b inc then [msg9b inc] else []
def check10 (bal : FinData) : List String := if cond10 bal then [msg10 bal] else []

/-- The `errors` list built by `validate`, in source (append) order. -/
def validateErrors (bal inc : FinData) : List String :=
  check1a bal ++ check1b bal ++ check2a bal ++ check2b bal ++ check3a bal ++ check3b bal
    ++ check5a bal ++ check5b bal ++ check6a bal ++ check6b bal ++ check7a bal ++ check7b bal
    ++ check9a inc ++ check9b inc ++ check10 bal

/-- All sub-checks in source order, each with its failure condition and
the (single) message it would append. -/
def checkSequence (bal inc : FinData) : List (Bool × String) :=
  [(cond1a bal, msg1a bal), (cond1b bal, msg1b bal),
   (cond2a bal, msg2a bal), (cond2b bal, msg2b bal),
   (cond3a bal, msg3a bal), (cond3b bal, msg3b bal),
   (cond5a bal, msg5a bal), (cond5b bal, msg5b bal),
   (cond6a bal, msg6a bal), (cond6b bal, msg6b bal),
   (cond7a bal, msg7a bal), (cond7b bal, msg7b bal),
   (cond9a inc, msg9a inc), (cond9b inc, msg9b inc),
   (cond10 bal, msg10 bal)]

/-- Error flag #1 (`error_1` in the source). -/
def error_1 (bal : FinData) : Bool := cond1a bal || cond1b bal
def error_2 (bal : FinData) : Bool := cond2a bal || cond2b bal
def error_3 (bal : FinData) : Bool := cond3a bal || cond3b bal
/-- Check #4 is commented out in the source, so `error_4` is never set. -/
def error_4 : Bool := false
def error_5 (bal : FinData) : Bool := cond5a bal || cond5b bal
def error_6 (bal : FinData) : Bool := cond6a bal || cond6b bal
def error_7 (bal : FinData) : Bool := cond7a bal || cond7b bal
/-- Check #8 is commented out in the source, so `error_8` is never set. -/
def error_8 : Bool := false
def error_9 (inc : FinData) : Bool := cond9a inc || cond9b inc
def error_10 (bal : FinData) : Bool := cond10 bal

/-- The status computed at the end of `validate`:
`"Validado"` when `errors` is empty, otherwise both remaining branches
(`error_4` special case included) yield `"Advertencia"`. -/
def validateStatus (bal inc : FinData) : String :=
  if validateErrors bal inc = [] then "Validado"
  else if error_4
      && !(error_1 bal || error_2 bal || error_3 bal || error_5 bal || error_6 bal
            || error_7 bal || error_8 || error_9 inc || error_10 bal) then
    "Advertencia"
  else "Advertencia"

/-!
## Validation outcome — `n4_validate.validate` / `set_validation_sin_datos`

`update_status(collection, docfile_id, status, user_id, progress=…,
validation=…)` persists the document status, the progress and the
`Validation` record; we return the persisted triple.
-/

/-- The `Validation` model (`app/models/docs_validation.py`):
`status` is `"Sin datos"` (NoData), `"Validado"` (Validated) or
`"Advertencia"` (Warning); `message` is the list of messages. -/
structure Validation where
  status : String
  message : List String
deriving DecidableEq, Repr

/-- What the validation stage persists: document status (`"Analizado"` =
Analyzed), progress, and the `Validation` payload. -/
structure ValidateOutcome where
  docStatus : String
  progress : ℕ
  validation : Validation
deriving DecidableEq, Repr

def sinDatosMessage : String :=
  "No se han detectado en el documento las páginas de Estado de Resultados y/o Estado de Situación Patrimonial.\nPor favor, revisar el documento de balance."

/-- `set_validation_sin_datos`: persists status `"Analizado"`, progress 100
and a `"Sin datos"` (NoData) validation. -/
def set_validation_sin_datos : ValidateOutcome :=
  { docStatus := "Analizado", progress := 100,
    validation := { status := "Sin datos", message := [sinDatosMessage] } }

def successMessage : String :=
  "Validación completada con éxito. No se han detectado inconsistencias en las cuentas elementales."

/-- The stored document as read by `validate`: `balance_data` /
`income_statement_data` hold the `resultados_principales` payload when the
table is present; `none` models an absent (or falsy) table. -/
structure StoredDoc where
  balance_data : Option FinData
  income_statement_data : Option FinData

/-- `validate(state)` for an existing stored document: early-exit to
`set_validation_sin_datos` when `state.get("stop")` is truthy or either
table is missing; otherwise run the checks and persist the result with
document status `"Analizado"` and progress 100. -/
def validateRun (stop : Bool) (doc : StoredDoc) : ValidateOutcome :=
  if stop then set_validation_sin_datos
  else
    match doc.balance_data, doc.income_statement_data with
    | some bal, some inc =>
      { docStatus := "Analizado", progress := 100,
        validation :=
          { status := validateStatus bal inc,
            message :=
              if validateErrors bal inc = [] then [successMessage]
              else validateErrors bal inc } }
    | _, _ => set_validation_sin_datos

/-!
## Recognized page info and stored pages — `app/models/docs_recognition.py`,
`app/models/docs.py`

`RecognizedInfo` is the per-page classification result.  The pydantic
model has `bool | None` company fields; Python truthiness identifies
`None` with `False`, so they are embedded as `Bool`.
-/

structure RecognizedInfo where
  is_balance_sheet : Bool
  is_income_statement_sheet : Bool
  is_appendix : Bool
  original_orientation_degrees : ℤ
  has_company_cuit : Bool
  has_company_name : Bool
  has_company_address : Bool
  has_company_activity : Bool
  audit_report : Bool
deriving DecidableEq, Repr

/-- A page as stored in the documents collection, restricted to the fields
the router and the extraction precondition read.  A stored
`recognized_info` dict is a non-empty model dump, so Python truthiness of
the field is `isSome`. -/
structure PageDoc where
  recognized_info : Option RecognizedInfo := none
  image_path : Option String := none
deriving DecidableEq, Repr

/-- A stored document, restricted to the fields read by the router and by
the conversion stage.  `company_info` is an opaque payload. -/
structure DbDoc where
  pages : List PageDoc := []
  page_count : ℕ := 0
  status : String := ""
  progress : ℕ := 0
  balance_data : Option FinData := none
  income_statement_data : Option FinData := none
  company_info : Option String := none

/-!
## Graph router — `app/services/graph_router.py`

The router functions read the stored document (`none` = the id does not
resolve to a document).
-/

/-- `_validate_pages_converted(docfile_id)`. -/
def validate_pages_converted (db : Option DbDoc) : Bool :=
  match db with
  | none => false
  | some doc =>
    if doc.pages.isEmpty then false
    else doc.pages.all (fun p => pytruthyStr p.image_path)

/-- `_validate_pages_recognized(docfile_id)`: at least one page whose
`recognized_info` is truthy. -/
def validate_pages_recognized (db : Option DbDoc) : Bool :=
  match db with
  | none => false
  | some doc =>
    if doc.pages.isEmpty then false
    else doc.pages.any (fun p => p.recognized_info.isSome)

/-- `_validate_data_extracted(docfile_id)`. -/
def validate_data_extracted (db : Option DbDoc) : Bool :=
  match db with
  | none => false
  | some doc =>
    doc.balance_data.isSome || doc.income_statement_data.isSome
      || doc.company_info.isSome

/-- Python bytes truthiness: `None` and `b""` are falsy. -/
def pytruthyBytes : Option (List ℕ) → Bool
  | none => false
  | some b => !b.isEmpty

/-- `_route_complete_process(state)`. -/
def route_complete_process (filename : Option String) (file_content : Option (List ℕ)) :
    String :=
  if !(pytruthyStr filename) || !(pytruthyBytes file_content) then "error_node"
  else "upload_convert_node"

/-- `_route_recognize_extract(state)`. -/
def route_recognize_extract (db : Option DbDoc) : String :=
  if !(validate_pages_converted db) then "error_node" else "recognize_node"

/-- `_route_extract(state)`. -/
def route_extract (db : Option DbDoc) : String :=
  if !(validate_pages_recognized db) then "error_node" else "extract_node"

/-- `_route_validate(state)`. -/
def route_validate (db : Option DbDoc) : String :=
  if !(validate_data_extracted db) then "error_node" else "validate_node"

/-- `route_operation(state)`: checks that the document exists, then
dispatches per operation. -/
def route_operation (operation : String) (filename : Option String)
    (file_content : Option (List ℕ)) (db : Option DbDoc) : String :=
  if db.isNone then "error_node"
  else if operation = "complete_process" then route_complete_process filename file_content
  else if operation = "recognize_extract" then route_recognize_extract db
  else if operation = "extract" then route_extract db
  else if operation = "validate" then route_validate db
  else "error_node"

/-!
## Extraction precondition and routing after extract —
`n3_extract.py` (`check_relevant_pages`, `extract_node`) and
`graph_definition.py` (`route_after_extract`), plus the error node
(`n0_start_end.error_node`).
-/

/-- The LangGraph processing state, restricted to the fields that drive
routing after the extraction stage. -/
structure PState where
  stop : Bool := false
  error_message : Option String := none
deriving DecidableEq, Repr

/-- `any(p.get("recognized_info", {}).get("is_balance_sheet") for p in pages)`. -/
def hasBalancePage (pages : List PageDoc) : Bool :=
  pages.any (fun p =>
    match p.recognized_info with
    | some ri => ri.is_balance_sheet
    | none => false)

def hasIncomePage (pages : List PageDoc) : Bool :=
  pages.any (fun p =>
    match p.recognized_info with
    | some ri => ri.is_income_statement_sheet
    | none => false)

/-- `check_relevant_pages(state)`: sets `stop=True` when no page is
flagged balance sheet or income statement. -/
def check_relevant_pages (state : PState) (doc : DbDoc) : PState :=
  if !(hasBalancePage doc.pages || hasIncomePage doc.pages) then
    { state with stop := true }
  else state

/-- Result of the entry of `extract_node`: either the early return taken
when `stop` is set (no extractor was invoked) or the continuation into
the parallel extraction (`extract_parallel`, LLM calls). -/
inductive ExtractEntry where
  | stopped (s : PState)
  | proceeds (s : PState)
deriving DecidableEq, Repr

/-- `extract_node` steps 1–2: run `check_relevant_pages`; if `stop` is set
return `{**state, "error_message": "No se encontraron páginas relevantes (ESP/ER)"}`,
otherwise continue into the extraction pipeline. -/
def extract_node_entry (state : PState) (doc : DbDoc) : ExtractEntry :=
  let s := check_relevant_pages state doc
  if s.stop then
    .stopped { s with error_message := some "No se encontraron páginas relevantes (ESP/ER)" }
  else .proceeds s

/-- `route_after_extract(state)` from `graph_definition.py`. -/
def route_after_extract (s : PState) : String :=
  if pytruthyStr s.error_message then "error_node" else "validate_node"

/-- `error_node(state)` persists status `"Error"` with the error message;
returns the persisted (status, error_message) pair. -/
def error_node_update (s : PState) : String × String :=
  ("Error", s.error_message.getD "Error desconocido en procesamiento")

/-!
## Zero-page conversion — `n1_upload_convert.py`

`convert_pdf_to_images` with `pdfinfo` reporting `total_pages == 0`
persists `{"page_count": 0, "status": "Convertido", "progress": 100}`
(not touching `pages`) and returns `None` (lines 154–163).
`upload_convert_node` then evaluates `state.get("docfile_id")` on that
`None` (AttributeError), and its `except` handler evaluates
`{**state, "error_message": …}` with `state = None`, which itself raises
`TypeError` — so the node raises instead of returning a state.
-/

/-- The zero-page branch of `convert_pdf_to_images`: the persisted
document and the Python return value (`None`). -/
def convert_pdf_to_images_zero (doc : DbDoc) : DbDoc × Option PState :=
  ({ doc with page_count := 0, status := "Convertido", progress := 100 }, none)

/-- What `upload_convert_node` does with the value returned by
`convert_pdf_to_images`: a `None` return makes the node raise. -/
def upload_convert_node_wrap (ret : Option PState) : Except String PState :=
  match ret with
  | none => .error "TypeError: argument after ** must be a mapping"
  | some s => .ok s

/-- The conversion stage on a document whose source has zero pages:
persisted document plus the node outcome (`.error` = the stage raised). -/
def upload_convert_zero_page_run (doc : DbDoc) : DbDoc × Except String PState :=
  let r := convert_pdf_to_images_zero doc
  (r.1, upload_convert_node_wrap r.2)

/-!
## Task queue — `app/services/task_queue.py`
-/

/-- The four graph operations. -/
inductive GraphOp where
  | validateOp
  | extractOp
  | recognize_extract
  | complete_process
deriving DecidableEq, Repr

/-- The opaque task tuple `(operation, docfile_id, requester, filename,
file_content)` put on `graph_queue`. -/
structure GraphTask where
  operation : GraphOp
  docfile_id : String
  requester : String
  filename : Option String
  file_content : Option (List ℕ)
deriving DecidableEq, Repr

/-- `enqueue_graph_processing`: validate that `complete_process` carries a
truthy `filename` and `file_content` — raising `ValueError` BEFORE the
`graph_queue.put` otherwise — then append exactly one task to the FIFO.
Returns the queue after the call together with the raised error, if any. -/
def enqueue_graph_processing (operation : GraphOp) (docfile_id requester : String)
    (filename : Option String) (file_content : Option (List ℕ))
    (queue : List GraphTask) : List GraphTask × Option String :=
  if operation = .complete_process
      && (!(pytruthyStr filename) || !(pytruthyBytes file_content)) then
    (queue, some "complete_process requiere filename y file_content")
  else
    (queue ++ [⟨operation, docfile_id, requester, filename, file_content⟩], none)

/-!
## Company-info page selection — `n3_extract_company_info.get_company_info_pages`

The selection reads exactly two attributes of every page: its `id` and
its `recognized_info`; the `company_info` flags are overwritten at the
end.  We therefore run the algorithm over the projection `PageInfo` of a
page to those two fields (a page whose selection-relevant data is equal
behaves identically).  The Python `categorized` dict is only ever read
through the explicit, fixed key lists of the source (the `priorities`
lists), never iterated, so bucket access order is fully explicit here.
-/

/-- A page as seen by the selection algorithm: its id and its (present)
recognition result.  `get_company_info_pages` dereferences
`page.recognized_info` unconditionally, so selection runs on recognized
pages. -/
structure PageInfo where
  id : String
  recognized_info : RecognizedInfo
deriving DecidableEq, Repr

/-- A page of the document model (`app/models/docs.py`), restricted to
the fields `get_company_info_pages` reads or writes. -/
structure Page where
  id : String
  recognized_info : RecognizedInfo
  company_info : Bool
deriving DecidableEq, Repr

def Page.info (p : Page) : PageInfo := ⟨p.id, p.recognized_info⟩

/-- `classify(page)`: the first satisfied rule gives the bucket
`TOP1..TOP10`, suffix `A` (`deg0 = true`) or `B`; encoded as
`some (level, deg0)`.  A page matching no rule is unclassified. -/
def classify (ri : RecognizedInfo) : Option (ℕ × Bool) :=
  let deg0 := ri.original_orientation_degrees == 0
  if ri.has_company_cuit && ri.has_company_name && ri.has_company_activity
      && ri.audit_report && ri.has_company_address then some (1, deg0)
  else if ri.has_company_cuit && ri.has_company_name && ri.has_company_activity
      && ri.audit_report then some (2, deg0)
  else if ri.has_company_cuit && ri.has_company_name && ri.has_company_activity then
    some (3, deg0)
  else if ri.has_company_cuit && ri.has_company_name && ri.audit_report then
    some (4, deg0)
  else if ri.has_company_cuit && ri.has_company_name then some (5, deg0)
  else if ri.has_company_name && ri.has_company_activity && ri.audit_report
      && ri.has_company_address then some (6, deg0)
  else if ri.has_company_name && ri.has_company_activity && ri.audit_report then
    some (7, deg0)
  else if ri.has_company_name && ri.has_company_activity then some (8, deg0)
  else if ri.has_company_name && ri.audit_report then some (9, deg0)
  else if ri.has_company_name then some (10, deg0)
  else none

/-- `categorized[cat]`: the pages of a bucket, in original page order. -/
def catPages (infos : List PageInfo) (c : ℕ × Bool) : List PageInfo :=
  infos.filter (fun p => classify p.recognized_info == some c)

/-- `first(categorized[cA]) or first(categorized[cB])`. -/
def firstOf2 (infos : List PageInfo) (lvl : ℕ) : Option PageInfo :=
  (catPages infos (lvl, true)).head?.or (catPages infos (lvl, false)).head?

/-- Pages with `original_orientation_degrees == 0`. -/
def deg0Pages (l : List PageInfo) : List PageInfo :=
  l.filter (fun p => p.recognized_info.original_orientation_degrees == 0)

/-- The nested `for category in priorities: for page in categorized[category]:
if page.id != top.id: additional = page; break` search: the first page with a
different id, scanning the buckets in the given priority order. -/
def prioritySearch (infos : List PageInfo) (cats : List (ℕ × Bool))
    (excludeId : String) : Option PageInfo :=
  (cats.flatMap (fun c => catPages infos c)).find? (fun p => p.id != excludeId)

/-- The category list `["TOP3A","TOP3B",…,"TOP10B"]` used by rules 1 and 2. -/
def priorities3to10 : List (ℕ × Bool) :=
  [(3, true), (3, false), (4, true), (4, false), (5, true), (5, false),
   (6, true), (6, false), (7, true), (7, false), (8, true), (8, false),
   (9, true), (9, false), (10, true), (10, false)]

/-- The no-CUIT category list `["TOP6A",…,"TOP10B"]` used by rules 3–5. -/
def prioritiesNoCuit : List (ℕ × Bool) :=
  [(6, true), (6, false), (7, true), (7, false), (8, true), (8, false),
   (9, true), (9, false), (10, true), (10, false)]

/-- `[top] if not additional else [top, additional]`. -/
def withAdditional (top : PageInfo) (additional : Option PageInfo) : List PageInfo :=
  match additional with
  | none => [top]
  | some a => [top, a]

/-- REGLA 1. -/
def selectRule1 (infos : List PageInfo) (top1 : PageInfo) : List PageInfo :=
  withAdditional top1 (prioritySearch infos priorities3to10 top1.id)

/-- REGLA 2: prefer a page with a company address (deg0 first), then the
generic priority search. -/
def selectRule2 (infos : List PageInfo) (top2 : PageInfo) : List PageInfo :=
  let domicilio := infos.filter
    (fun p => p.recognized_info.has_company_address && p.id != top2.id)
  let additional := ((deg0Pages domicilio).head?.or domicilio.head?).or
    (prioritySearch infos priorities3to10 top2.id)
  withAdditional top2 additional

/-- REGLA 3: audit-report page, then another TOP3, then a TOP5, then any
CUIT page, then the no-CUIT buckets. -/
def selectRule3 (infos : List PageInfo) (top3 : PageInfo) : List PageInfo :=
  let auditor := infos.filter
    (fun p => p.recognized_info.audit_report && p.id != top3.id)
  let a1 := (deg0Pages auditor).head?.or auditor.head?
  let top3_others := (catPages infos (3, true) ++ catPages infos (3, false)).filter
    (fun p => p.id != top3.id)
  let a2 := (deg0Pages top3_others).head?.or top3_others.head?
  let top5 := catPages infos (5, true) ++ catPages infos (5, false)
  let a3 := (top5.filter (fun p =>
      p.id != top3.id && p.recognized_info.original_orientation_degrees == 0)).head?.or
    ((top5.filter (fun p => p.id != top3.id)).head?)
  let cuit := infos.filter
    (fun p => p.recognized_info.has_company_cuit && p.id != top3.id)
  let a4 := (deg0Pages cuit).head?.or cuit.head?
  let a5 := prioritySearch infos prioritiesNoCuit top3.id
  withAdditional top3 ((((a1.or a2).or a3).or a4).or a5)

/-- REGLA 4: a TOP5 page, then any CUIT page, then the no-CUIT buckets. -/
def selectRule4 (infos : List PageInfo) (top4 : PageInfo) : List PageInfo :=
  let top5 := (catPages infos (5, true) ++ catPages infos (5, false)).filter
    (fun p => p.id != top4.id)
  let a1 := (deg0Pages top5).head?.or top5.head?
  let cuit := infos.filter
    (fun p => p.recognized_info.has_company_cuit && p.id != top4.id)
  let a2 := (deg0Pages cuit).head?.or cuit.head?
  let a3 := prioritySearch infos prioritiesNoCuit top4.id
  withAdditional top4 ((a1.or a2).or a3)

/-- REGLA 5: the LAST other TOP5 page (deg0 preferred), then any CUIT
page, then the no-CUIT buckets. -/
def selectRule5 (infos : List PageInfo) (top5p : PageInfo) : List PageInfo :=
  let top5_others := (catPages infos (5, true) ++ catPages infos (5, false)).filter
    (fun p => p.id != top5p.id)
  let a1 := (deg0Pages top5_others).getLast?.or top5_others.getLast?
  let cuit := infos.filter
    (fun p => p.recognized_info.has_company_cuit && p.id != top5p.id)
  let a2 := (deg0Pages cuit).head?.or cuit.head?
  let a3 := prioritySearch infos prioritiesNoCuit top5p.id
  withAdditional top5p ((a1.or a2).or a3)

/-- REGLA 6. -/
def selectRule6 (infos : List PageInfo) (top6 : PageInfo) : List PageInfo :=
  withAdditional top6 (prioritySearch infos
    [(7, true), (7, false), (8, true), (8, false), (9, true), (9, false),
     (10, true), (10, false)] top6.id)

/-- REGLA 7. -/
def selectRule7 (infos : List PageInfo) (top7 : PageInfo) : List PageInfo :=
  withAdditional top7 (prioritySearch infos
    [(8, true), (8, false), (9, true), (9, false), (10, true), (10, false)] top7.id)

/-- REGLA 8. -/
def selectRule8 (infos : List PageInfo) (top8 : PageInfo) : List PageInfo :=
  withAdditional top8 (prioritySearch infos
    [(9, true), (9, false), (10, true), (10, false)] top8.id)

/-- REGLA 9: a TOP10 page (deg0 preferred). -/
def selectRule9 (infos : List PageInfo) (top9 : PageInfo) : List PageInfo :=
  let top10 := (catPages infos (10, true) ++ catPages infos (10, false)).filter
    (fun p => p.id != top9.id)
  withAdditional top9 ((deg0Pages top10).head?.or top10.head?)

/-- REGLA 10: the LAST other TOP10 page (deg0 preferred). -/
def selectRule10 (infos : List PageInfo) (top10p : PageInfo) : List PageInfo :=
  let top10_others := (catPages infos (10, true) ++ catPages infos (10, false)).filter
    (fun p => p.id != top10p.id)
  withAdditional top10p ((deg0Pages top10_others).getLast?.or top10_others.getLast?)

/-- REGLAS 11–12: only CUIT pages remain (or nothing at all). -/
def selectRule11 (infos : List PageInfo) : List PageInfo :=
  let cuit_pages := infos.filter (fun p => p.recognized_info.has_company_cuit)
  if cuit_pages.isEmpty then []
  else
    let deg0 := deg0Pages cuit_pages
    if 2 ≤ deg0.length then
      match deg0.head?, deg0.getLast? with
      | some a, some b => [a, b]
      | _, _ => []
    else if deg0.length = 1 && 1 < cuit_pages.length then
      match deg0.head?, cuit_pages.getLast? with
      | some a, some b => [a, b]
      | _, _ => []
    else if 2 ≤ cuit_pages.length then
      match cuit_pages.head?, cuit_pages.getLast? with
      | some a, some b => [a, b]
      | _, _ => []
    else
      match cuit_pages.head? with
      | some a => [a]
      | none => []

/-- `selected_company_info_pages`: the 12 ordered rules, stopping at the
first whose primary page exists. -/
def selectedCompanyInfoPages (infos : List PageInfo) : List PageInfo :=
  match firstOf2 infos 1 with
  | some top1 => selectRule1 infos top1
  | none =>
    match firstOf2 infos 2 with
    | some top2 => selectRule2 infos top2
    | none =>
      match firstOf2 infos 3 with
      | some top3 => selectRule3 infos top3
      | none =>
        match firstOf2 infos 4 with
        | some top4 => selectRule4 infos top4
        | none =>
          match firstOf2 infos 5 with
          | some top5p => selectRule5 infos top5p
          | none =>
            match firstOf2 infos 6 with
            | some top6 => selectRule6 infos top6
            | none =>
              match firstOf2 infos 7 with
              | some top7 => selectRule7 infos top7
              | none =>
                match firstOf2 infos 8 with
                | some top8 => selectRule8 infos top8
                | none =>
                  match firstOf2 infos 9 with
                  | some top9 => selectRule9 infos top9
                  | none =>
                    match firstOf2 infos 10 with
                    | some top10p => selectRule10 infos top10p
                    | none => selectRule11 infos

/-- `get_company_info_pages`: run the selection, collect the selected
page ids, and overwrite EVERY page's `company_info` flag with membership
in that id set (the initial reset-to-`False` loop of the source is
subsumed: classification never reads the flag and the final loop writes
every page).  Returns the updated pages and the selected ids in
selection order. -/
def get_company_info_pages (pages : List Page) : List Page × List String :=
  let selected := selectedCompanyInfoPages (pages.map Page.info)
  let ids := selected.map PageInfo.id
  (pages.map (fun p => { p with company_info := ids.contains p.id }), ids)

/-!
## Helper lemmas
-/

attribute [local semireducible] Rat.add Rat.sub Rat.mul Rat.inv

theorem pyabs_eq_abs (q : ℚ) : pyabs q = |q| := by
  unfold pyabs
  rcases lt_trichotomy q 0 with h | h | h
  · rw [if_pos h, abs_of_neg h]
  · simp [h]
  · rw [if_neg (by linarith), abs_of_pos h]

/-- **C2.** The tolerance predicate: for reals `expected ≠ 0` it passes iff
`|actual − expected| / |expected| ≤ 0.0005`, for `expected = 0` iff
`|actual| ≤ 0.0005`; at `expected = 1000` it passes for `actual = 1000.4999`
and fails for `actual = 1000.6`. -/
theorem c2_tolerance_characterization (e a : ℚ) :
    (is_within_tolerance e a = true ↔
      (if e = 0 then |a| ≤ 5 / 10000 else |a - e| / |e| ≤ 5 / 10000))
    ∧ is_within_tolerance 1000 (10004999 / 10000) = true
    ∧ is_within_tolerance 1000 (10006 / 10) = false := by
  refine ⟨?_, by decide, by decide⟩
  unfold is_within_tolerance TOLERANCIA_ERROR
  split
  · simp [pyabs_eq_abs]
  · rw [pyabs_eq_abs, abs_div]
    simp

/-- **C5.** Whenever `stop` was set upstream or either stored table is
absent, the validation stage persists exactly the `"Sin datos"` (NoData)
outcome — document status `"Analizado"`, progress 100 — and runs no
accounting-identity check (the outcome is literally
`set_validation_sin_datos`); in particular a missing
`income_statement_data` forces it regardless of `balance_data`. -/
theorem c5_validation_no_data (stop : Bool) (doc : StoredDoc)
    (h : stop = true ∨ doc.balance_data = none ∨ doc.income_statement_data = none) :
    validateRun stop doc = set_validation_sin_datos
    ∧ (validateRun stop doc).validation.status = "Sin datos"
    ∧ (validateRun stop doc).docStatus = "Analizado"
    ∧ (validateRun stop doc).progress = 100 := by
  have hmain : validateRun stop doc = set_validation_sin_datos := by
    rcases h with h | h | h
    · simp [validateRun, h]
    · cases hs : stop
      · unfold validateRun
        rw [if_neg (by simp)]
        rw [h]
      · simp [validateRun]
    · cases hs : stop
      · unfold validateRun
        rw [if_neg (by simp)]
        rw [h]
        rcases doc.balance_data with _ | bd
        · rfl
        · rfl
      · simp [validateRun]
  exact ⟨hmain, by rw [hmain]; rfl, by rw [hmain]; rfl, by rw [hmain]; rfl⟩

/-- Witness for C5: a stored document carrying balance data but no income
table yields the NoData outcome. -/
theorem c5_validation_no_data_witness :
    validateRun false ⟨some (.items []), none⟩ = set_validation_sin_datos :=
  (c5_validation_no_data false ⟨some (.items []), none⟩ (Or.inr (Or.inr rfl))).1

theorem filter_map_pairs (l : List (Bool × String)) :
    (l.filter (fun x => x.1)).map (fun x => x.2)
      = l.flatMap (fun x => if x.1 then [x.2] else []) := by
  induction l with
  | nil => rfl
  | cons h t ih => cases hh : h.1 <;> simp [List.filter_cons, hh, ih]

/-- **C7.** With both tables present and `stop` unset, the persisted
validation status is `"Validado"` iff the failure-message list is empty
and `"Advertencia"` otherwise; over all inputs no status other than
`"Sin datos"` / `"Validado"` / `"Advertencia"` is produced; and the error
list consists of exactly one message per failing sub-check, in source
order (each message rendering the two compared values). -/
theorem c7_status_iff_no_messages (stop : Bool) (doc : StoredDoc) (bal inc : FinData) :
    (validateRun stop doc).validation.status ∈ ["Sin datos", "Validado", "Advertencia"]
    ∧ ((validateRun false ⟨some bal, some inc⟩).validation.status = "Validado"
        ↔ validateErrors bal inc = [])
    ∧ ((validateRun false ⟨some bal, some inc⟩).validation.status = "Advertencia"
        ↔ validateErrors bal inc ≠ [])
    ∧ validateErrors bal inc
        = ((checkSequence bal inc).filter (fun x => x.1)).map (fun x => x.2) := by
  have hstat : ∀ b i, validateStatus b i
      = if validateErrors b i = [] then "Validado" else "Advertencia" := by
    intro b i
    unfold validateStatus
    by_cases h : validateErrors b i = [] <;> simp [h]
  refine ⟨?_, ?_, ?_, ?_⟩
  · unfold validateRun
    split
    · simp [set_validation_sin_datos]
    · rcases doc with ⟨bd, id⟩
      rcases bd with _ | b
      · rcases id with _ | i <;> simp [set_validation_sin_datos]
      · rcases id with _ | i
        · simp [set_validation_sin_datos]
        · simp only [hstat]
          by_cases h : validateErrors b i = [] <;> simp [h]
  · show (validateRun false ⟨some bal, some inc⟩).validation.status = _ ↔ _
    simp only [validateRun, if_neg (by simp : ¬(false = true))]
    rw [hstat]
    by_cases h : validateErrors bal inc = [] <;> simp [h]
  · show (validateRun false ⟨some bal, some inc⟩).validation.status = _ ↔ _
    simp only [validateRun, if_neg (by simp : ¬(false = true))]
    rw [hstat]
    by_cases h : validateErrors bal inc = [] <;> simp [h]
  · rw [filter_map_pairs]
    simp only [checkSequence, List.flatMap_cons, List.flatMap_nil, List.append_nil]
    unfold validateErrors check1a check1b check2a check2b check3a check3b check5a
      check5b check6a check6b check7a check7b check9a check9b check10
    simp only [List.append_assoc]

/-- A stored balance table with `activo_total = 0` and
`pasivo_total + patrimonio_neto = 500`. -/
def c9_balance : FinData := .items
  [⟨"activo_total", some 0, none⟩,
   ⟨"pasivo_total", some 300, none⟩,
   ⟨"patrimonio_neto", some 200, none⟩]

def c9_income : FinData := .items []

/-- **C9.** A stored figure equal to 0 is treated like a missing figure:
if any operand of check #1 (current period) is 0 or missing, the check is
skipped and appends no message; concretely, the document with
`activo_total = 0` and `pasivo_total + patrimonio_neto = 500` still
validates with status `"Validado"`. -/
theorem c9_zero_operand_skips_check (bal : FinData)
    (h : pytruthy (accGet bal "activo_total" "actual") = false
       ∨ pytruthy (accGet bal "pasivo_total" "actual") = false
       ∨ pytruthy (accGet bal "patrimonio_neto" "actual") = false) :
    cond1a bal = false ∧ check1a bal = []
    ∧ accGet c9_balance "activo_total" "actual" = some 0
    ∧ accGet c9_balance "pasivo_total" "actual" = some 300
    ∧ accGet c9_balance "patrimonio_neto" "actual" = some 200
    ∧ (validateRun false ⟨some c9_balance, some c9_income⟩).validation.status
        = "Validado" := by
  have hc : cond1a bal = false := by
    simp only [cond1a]
    rcases h with h | h | h <;> simp [h]
  refine ⟨hc, by simp [check1a, hc], by decide, by decide, by decide, by decide⟩

/-- Witness for C9 at the concrete balance table: `activo_total = 0` is
stored yet check #1 is skipped. -/
theorem c9_zero_operand_skips_check_witness :
    cond1a c9_balance = false ∧ check1a c9_balance = [] :=
  ⟨(c9_zero_operand_skips_check c9_balance (Or.inl (by decide))).1,
   (c9_zero_operand_skips_check c9_balance (Or.inl (by decide))).2.1⟩

theorem accHas_of_accGet (d : FinData) (c periodo : String) (v : ℚ)
    (hp : periodo = "actual" ∨ periodo = "anterior")
    (h : accGet d c periodo = some v) : accHas d c = true := by
  cases d with
  | items l =>
    simp only [accGet] at h
    simp only [accHas]
    rcases hcl : cacheLookup c l with _ | it
    · rw [hcl] at h
      simp at h
    · simp [hcl]
  | legacy fields =>
    simp only [accGet] at h
    simp only [accHas]
    rcases hp with hp | hp <;> subst hp
    · rcases hl : fields.lookup (c ++ "_" ++ "actual") with _ | ov
      · rw [hl] at h
        simp at h
      · simp [hl]
    · rcases hl : fields.lookup (c ++ "_" ++ "anterior") with _ | ov
      · rw [hl] at h
        simp at h
      · simp [hl]

theorem check_gt_iff (g : Bool) (m : String) (x y : ℚ)
    (hg : g = decide (x + TOLERANCIA_ERROR < y)) :
    ((if g then [m] else []) = [] ↔ y - x ≤ TOLERANCIA_ERROR)
    ∧ ((if g then [m] else []) = [m] ↔ TOLERANCIA_ERROR < y - x) := by
  subst hg
  by_cases h : x + TOLERANCIA_ERROR < y
  · rw [if_pos (by simpa using h)]
    exact ⟨iff_of_false (by simp) (by intro hle; linarith),
           iff_of_true rfl (by linarith)⟩
  · rw [if_neg (by simpa using h)]
    push_neg at h
    exact ⟨iff_of_true rfl (by linarith),
           iff_of_false (by simp) (by intro hlt; linarith)⟩

/-- **C10.** The inequality checks #5, #6, #7, #9 allow the absolute slack
`TOLERANCIA_ERROR = 0.0005`: with both operands present and nonzero, the
check appends no message iff the left side exceeds the right side by at
most `0.0005`, and appends its single message iff the excess is strictly
greater — independent of the magnitudes involved (both periods). -/
theorem c10_inequality_absolute_slack (bal inc : FinData) :
    (∀ d c : ℚ, accGet bal "disponibilidades" "actual" = some d → d ≠ 0 →
      accGet bal "activo_corriente" "actual" = some c → c ≠ 0 →
      (check5a bal = [] ↔ d - c ≤ TOLERANCIA_ERROR)
      ∧ (check5a bal = [msg5a bal] ↔ TOLERANCIA_ERROR < d - c))
    ∧ (∀ d c : ℚ, accGet bal "disponibilidades" "anterior" = some d → d ≠ 0 →
      accGet bal "activo_corriente" "anterior" = some c → c ≠ 0 →
      (check5b bal = [] ↔ d - c ≤ TOLERANCIA_ERROR)
      ∧ (check5b bal = [msg5b bal] ↔ TOLERANCIA_ERROR < d - c))
    ∧ (∀ b c : ℚ, accGet bal "bienes_de_cambio" "actual" = some b → b ≠ 0 →
      accGet bal "activo_corriente" "actual" = some c → c ≠ 0 →
      (check6a bal = [] ↔ b - c ≤ TOLERANCIA_ERROR)
      ∧ (check6a bal = [msg6a bal] ↔ TOLERANCIA_ERROR < b - c))
    ∧ (∀ b c : ℚ, accGet bal "bienes_de_cambio" "anterior" = some b → b ≠ 0 →
      accGet bal "activo_corriente" "anterior" = some c → c ≠ 0 →
      (check6b bal = [] ↔ b - c ≤ TOLERANCIA_ERROR)
      ∧ (check6b bal = [msg6b bal] ↔ TOLERANCIA_ERROR < b - c))
    ∧ (∀ d b c : ℚ, accGet bal "disponibilidades" "actual" = some d → d ≠ 0 →
      accGet bal "bienes_de_cambio" "actual" = some b → b ≠ 0 →
      accGet bal "activo_corriente" "actual" = some c → c ≠ 0 →
      (check7a bal = [] ↔ (d + b) - c ≤ TOLERANCIA_ERROR)
      ∧ (check7a bal = [msg7a bal] ↔ TOLERANCIA_ERROR < (d + b) - c))
    ∧ (∀ d b c : ℚ, accGet bal "disponibilidades" "anterior" = some d → d ≠ 0 →
      accGet bal "bienes_de_cambio" "anterior" = some b → b ≠ 0 →
      accGet bal "activo_corriente" "anterior" = some c → c ≠ 0 →
      (check7b bal = [] ↔ (d + b) - c ≤ TOLERANCIA_ERROR)
      ∧ (check7b bal = [msg7b bal] ↔ TOLERANCIA_ERROR < (d + b) - c))
    ∧ (∀ v r : ℚ, accGet inc "ingresos_por_venta" "actual" = some v → v ≠ 0 →
      accGet inc "resultados_antes_de_impuestos" "actual" = some r → r ≠ 0 →
      (check9a inc = [] ↔ r - v ≤ TOLERANCIA_ERROR)
      ∧ (check9a inc = [msg9a inc] ↔ TOLERANCIA_ERROR < r - v))
    ∧ (∀ v r : ℚ, accGet inc "ingresos_por_venta" "anterior" = some v → v ≠ 0 →
      accGet inc "resultados_antes_de_impuestos" "anterior" = some r → r ≠ 0 →
      (check9b inc = [] ↔ r - v ≤ TOLERANCIA_ERROR)
      ∧ (check9b inc = [msg9b inc] ↔ TOLERANCIA_ERROR < r - v)) := by
  refine ⟨?_, ?_, ?_, ?_, ?_, ?_, ?_, ?_⟩
  · intro d c hd hd0 hc hc0
    have hcond : cond5a bal = decide (c + TOLERANCIA_ERROR < d) := by
      simp only [cond5a, hd, hc]
      simp [pytruthy, hd0, hc0]
    simpa only [check5a] using check_gt_iff (cond5a bal) (msg5a bal) c d hcond
  · intro d c hd hd0 hc hc0
    have hcond : cond5b bal = decide (c + TOLERANCIA_ERROR < d) := by
      simp only [cond5b, hd, hc]
      simp [pytruthy, hd0, hc0]
    simpa only [check5b] using check_gt_iff (cond5b bal) (msg5b bal) c d hcond
  · intro b c hb hb0 hc hc0
    have hhas : accHas bal "bienes_de_cambio" = true :=
      accHas_of_accGet bal "bienes_de_cambio" "actual" b (Or.inl rfl) hb
    have hcond : cond6a bal = decide (c + TOLERANCIA_ERROR < b) := by
      simp only [cond6a, hb, hc]
      simp [pytruthy, hhas, hb0, hc0]
    simpa only [check6a] using check_gt_iff (cond6a bal) (msg6a bal) c b hcond
  · intro b c hb hb0 hc hc0
    have hhas : accHas bal "bienes_de_cambio" = true :=
      accHas_of_accGet bal "bienes_de_cambio" "anterior" b (Or.inr rfl) hb
    have hcond : cond6b bal = decide (c + TOLERANCIA_ERROR < b) := by
      simp only [cond6b, hb, hc]
      simp [pytruthy, hhas, hb0, hc0]
    simpa only [check6b] using check_gt_iff (cond6b bal) (msg6b bal) c b hcond
  · intro d b c hd hd0 hb hb0 hc hc0
    have hhas : accHas bal "bienes_de_cambio" = true :=
      accHas_of_accGet bal "bienes_de_cambio" "actual" b (Or.inl rfl) hb
    have hcond : cond7a bal = decide (c + TOLERANCIA_ERROR < d + b) := by
      simp only [cond7a, hd, hb, hc]
      simp [pytruthy, hhas, hd0, hb0, hc0]
    simpa only [check7a] using check_gt_iff (cond7a bal) (msg7a bal) c (d + b) hcond
  · intro d b c hd hd0 hb hb0 hc hc0
    have hhas : accHas bal "bienes_de_cambio" = true :=
      accHas_of_accGet bal "bienes_de_cambio" "anterior" b (Or.inr rfl) hb
    have hcond : cond7b bal = decide (c + TOLERANCIA_ERROR < d + b) := by
      simp only [cond7b, hd, hb, hc]
      simp [pytruthy, hhas, hd0, hb0, hc0]
    simpa only [check7b] using check_gt_iff (cond7b bal) (msg7b bal) c (d + b) hcond
  · intro v r hv hv0 hr hr0
    have hcond : cond9a inc = decide (v + TOLERANCIA_ERROR < r) := by
      simp only [cond9a, hv, hr]
      simp [pytruthy, hv0, hr0]
    simpa only [check9a] using check_gt_iff (cond9a inc) (msg9a inc) v r hcond
  · intro v r hv hv0 hr hr0
    have hcond : cond9b inc = decide (v + TOLERANCIA_ERROR < r) := by
      simp only [cond9b, hv, hr]
      simp [pytruthy, hv0, hr0]
    simpa only [check9b] using check_gt_iff (cond9b inc) (msg9b inc) v r hcond

/-- A balance table with `disponibilidades = 10`, `bienes_de_cambio = 5`,
`activo_corriente = 20` in both periods. -/
def c10_balance : FinData := .items
  [⟨"disponibilidades", some 10, some 10⟩,
   ⟨"bienes_de_cambio", some 5, some 5⟩,
   ⟨"activo_corriente", some 20, some 20⟩]

/-- An income table with `ingresos_por_venta = 100`,
`resultados_antes_de_impuestos = 50` in both periods. -/
def c10_income : FinData := .items
  [⟨"ingresos_por_venta", some 100, some 100⟩,
   ⟨"resultados_antes_de_impuestos", some 50, some 50⟩]

/-- Witness for C10: at the concrete tables every hypothesis is
discharged and the four current-period checks pass. -/
theorem c10_inequality_absolute_slack_witness :
    check5a c10_balance = [] ∧ check6a c10_balance = []
    ∧ check7a c10_balance = [] ∧ check9a c10_income = [] := by
  refine ⟨?_, ?_, ?_, ?_⟩
  · exact ((c10_inequality_absolute_slack c10_balance c10_income).1 10 20
      (by decide) (by decide) (by decide) (by decide)).1.mpr (by decide)
  · exact ((c10_inequality_absolute_slack c10_balance c10_income).2.2.1 5 20
      (by decide) (by decide) (by decide) (by decide)).1.mpr (by decide)
  · exact ((c10_inequality_absolute_slack c10_balance c10_income).2.2.2.2.1 10 5 20
      (by decide) (by decide) (by decide) (by decide) (by decide) (by decide)).1.mpr
      (by decide)
  · exact ((c10_inequality_absolute_slack c10_balance c10_income).2.2.2.2.2.2.1 100 50
      (by decide) (by decide) (by decide) (by decide)).1.mpr (by decide)

/-- **C8.** `enqueue` for `complete_process` with a missing (falsy)
filename or file content raises `ValueError` before anything is queued,
leaving the FIFO unchanged; every call passing the per-operation
validation appends exactly one task. -/
theorem c8_enqueue_validation (op : GraphOp) (docid req : String)
    (fn : Option String) (fc : Option (List ℕ)) (q : List GraphTask) :
    ((op = .complete_process ∧ (pytruthyStr fn = false ∨ pytruthyBytes fc = false)) →
      enqueue_graph_processing op docid req fn fc q
        = (q, some "complete_process requiere filename y file_content"))
    ∧ ((op = .complete_process → pytruthyStr fn = true ∧ pytruthyBytes fc = true) →
      enqueue_graph_processing op docid req fn fc q
        = (q ++ [⟨op, docid, req, fn, fc⟩], none)
      ∧ (enqueue_graph_processing op docid req fn fc q).1.length = q.length + 1) := by
  constructor
  · rintro ⟨hop, hbad⟩
    subst hop
    unfold enqueue_graph_processing
    rcases hbad with hb | hb <;> simp [hb]
  · intro hok
    by_cases hop : op = .complete_process
    · obtain ⟨h1, h2⟩ := hok hop
      subst hop
      unfold enqueue_graph_processing
      simp [h1, h2]
    · unfold enqueue_graph_processing
      simp [hop]

/-- Witness for C8: a `complete_process` call without a filename raises
with the queue untouched; a valid call appends one task. -/
theorem c8_enqueue_validation_witness :
    enqueue_graph_processing .complete_process "d1" "u1" none (some [1]) []
      = ([], some "complete_process requiere filename y file_content")
    ∧ enqueue_graph_processing .complete_process "d1" "u1" (some "f.pdf") (some [1]) []
      = ([⟨.complete_process, "d1", "u1", some "f.pdf", some [1]⟩], none) :=
  ⟨(c8_enqueue_validation .complete_process "d1" "u1" none (some [1]) []).1
      ⟨rfl, Or.inl (by decide)⟩,
   ((c8_enqueue_validation .complete_process "d1" "u1" (some "f.pdf") (some [1]) []).2
      (fun _ => ⟨by decide, by decide⟩)).1⟩

/-- **C4.** For `operation="extract"` on an existing document, the router
returns the error node when every page lacks (truthy) recognized info —
in particular when there are no pages — and the extraction entry node as
soon as one page has recognized info set. -/
theorem c4_route_extract_decision (doc : DbDoc) (fn : Option String)
    (fc : Option (List ℕ)) :
    ((∀ p ∈ doc.pages, p.recognized_info = none) →
      route_operation "extract" fn fc (some doc) = "error_node")
    ∧ ((∃ p ∈ doc.pages, p.recognized_info.isSome) →
      route_operation "extract" fn fc (some doc) = "extract_node") := by
  have hro : route_operation "extract" fn fc (some doc) = route_extract (some doc) := by
    unfold route_operation
    rw [if_neg (by simp), if_neg (by decide), if_neg (by decide), if_pos rfl]
  constructor
  · intro h
    rw [hro]
    unfold route_extract validate_pages_recognized
    have hany : doc.pages.any (fun p => p.recognized_info.isSome) = false := by
      rw [List.any_eq_false]
      intro p hp
      simp [h p hp]
    cases hemp : doc.pages.isEmpty
    · simp [hemp, hany]
    · simp [hemp]
  · rintro ⟨p, hp, hps⟩
    rw [hro]
    unfold route_extract validate_pages_recognized
    have hne : doc.pages.isEmpty = false := by
      cases hd : doc.pages with
      | nil => rw [hd] at hp; cases hp
      | cons a t => simp
    have hany : doc.pages.any (fun x => x.recognized_info.isSome) = true :=
      List.any_eq_true.mpr ⟨p, hp, hps⟩
    simp [hne, hany]

/-- A `RecognizedInfo` with every flag false and orientation 0. -/
def riPlain : RecognizedInfo :=
  ⟨false, false, false, 0, false, false, false, false, false⟩

def c4_doc_unrecognized : DbDoc := { pages := [{ recognized_info := none }] }

def c4_doc_recognized : DbDoc := { pages := [{ recognized_info := some riPlain }] }

/-- Witness for C4: one document with an unrecognized page routes to the
error node, one with a recognized page routes to extraction. -/
theorem c4_route_extract_decision_witness :
    route_operation "extract" none none (some c4_doc_unrecognized) = "error_node"
    ∧ route_operation "extract" none none (some c4_doc_recognized) = "extract_node" :=
  ⟨(c4_route_extract_decision c4_doc_unrecognized none none).1 (by decide),
   (c4_route_extract_decision c4_doc_recognized none none).2 (by decide)⟩

/-- A one-page document whose recognized info flags neither a balance
sheet nor an income statement. -/
def c1_ri : RecognizedInfo :=
  { riPlain with has_company_cuit := true, has_company_name := true }

def c1_doc : DbDoc := { pages := [{ recognized_info := some c1_ri }] }

/-- The state produced by the early return of `extract_node` when no
relevant pages exist. -/
def c1_stopped_state : PState :=
  { stop := true,
    error_message := some "No se encontraron páginas relevantes (ESP/ER)" }

/-- **C1 counterexample.** On a document with no balance/income page the
extraction stage stops — but, contrary to the claim, it also sets
`error_message`, so `route_after_extract` sends the run to the error
node (not to validation) and the error node persists document status
`"Error"`. -/
theorem c1_claim_counterexample :
    extract_node_entry {} c1_doc = .stopped c1_stopped_state
    ∧ route_after_extract c1_stopped_state = "error_node"
    ∧ route_after_extract c1_stopped_state ≠ "validate_node"
    ∧ (error_node_update c1_stopped_state).1 = "Error" := by
  refine ⟨by decide, by decide, by decide, by decide⟩

/-- **C1 (amended).** For every state and every document in which no page
is flagged balance sheet or income statement, the extraction stage stops
with `stop = true` AND `error_message` set (so no extractor runs), and
the router then takes the Error path: `route_after_extract` yields the
error node, which persists document status `"Error"`. -/
theorem c1_no_relevant_pages_takes_error_path (state : PState) (doc : DbDoc)
    (h : hasBalancePage doc.pages = false ∧ hasIncomePage doc.pages = false) :
    extract_node_entry state doc = .stopped c1_stopped_state
    ∧ (∀ s, extract_node_entry state doc ≠ .proceeds s)
    ∧ route_after_extract c1_stopped_state = "error_node"
    ∧ (error_node_update c1_stopped_state).1 = "Error" := by
  obtain ⟨hb, hi⟩ := h
  have hstop : check_relevant_pages state doc = { state with stop := true } := by
    unfold check_relevant_pages
    simp [hb, hi]
  have hmain : extract_node_entry state doc = .stopped c1_stopped_state := by
    unfold extract_node_entry
    rw [hstop]
    rfl
  exact ⟨hmain,
         fun s hs => by rw [hmain] at hs; exact ExtractEntry.noConfusion hs,
         by decide, by decide⟩

/-- Witness for C1 (amended), at the concrete one-page document. -/
theorem c1_no_relevant_pages_takes_error_path_witness :
    extract_node_entry {} c1_doc = .stopped c1_stopped_state :=
  (c1_no_relevant_pages_takes_error_path {} c1_doc ⟨by decide, by decide⟩).1

/-- **C6.** On a zero-page source the conversion function persists
`page_count = 0`, status `"Convertido"`, progress 100 and stores no
pages — but it returns `None`, on which `upload_convert_node` raises
(`state.get` on `None`, then `{**None, …}` in its handler), so the stage
raises instead of completing cleanly. -/
theorem c6_zero_page_conversion :
    (upload_convert_zero_page_run {}).1.page_count = 0
    ∧ (upload_convert_zero_page_run {}).1.status = "Convertido"
    ∧ (upload_convert_zero_page_run {}).1.progress = 100
    ∧ (upload_convert_zero_page_run {}).1.pages = []
    ∧ (upload_convert_zero_page_run {}).2
        = Except.error "TypeError: argument after ** must be a mapping" :=
  ⟨rfl, rfl, rfl, rfl, rfl⟩

theorem get_company_info_pages_flag_invariant (pages : List Page) (f : Page → Bool) :
    get_company_info_pages (pages.map (fun p => { p with company_info := f p }))
      = get_company_info_pages pages := by
  simp only [get_company_info_pages]
  have h1 : (pages.map (fun p => { p with company_info := f p })).map Page.info
      = pages.map Page.info := by
    rw [List.map_map]
    exact List.map_congr_left (fun a _ => rfl)
  rw [h1]
  congr 1
  rw [List.map_map]
  exact List.map_congr_left (fun a _ => rfl)

/-- **C3.** The company-info page selection is deterministic (a pure
function of the pages' ids and `RecognizedInfo`, embedded without any
dict iteration): running it on its own output reproduces the same
selection and the same flags (idempotence); the incoming `company_info`
flags are ignored entirely (recomputed from scratch, so a page flagged
by a previous run but not selected now ends with `company_info = false`);
and the output flags are exactly membership in the selected-page ids. -/
theorem c3_selection_deterministic_idempotent (pages : List Page) (f : Page → Bool) :
    get_company_info_pages (get_company_info_pages pages).1 = get_company_info_pages pages
    ∧ get_company_info_pages (pages.map (fun p => { p with company_info := f p }))
        = get_company_info_pages pages
    ∧ (get_company_info_pages pages).1
        = pages.map (fun p =>
            { p with company_info := ((get_company_info_pages pages).2).contains p.id }) := by
  refine ⟨?_, get_company_info_pages_flag_invariant pages f, rfl⟩
  have h : (get_company_info_pages pages).1
      = pages.map (fun p =>
          { p with company_info := ((get_company_info_pages pages).2).contains p.id }) := rfl
  rw [h]
  exact get_company_info_pages_flag_invariant pages _

end Risco
